import Mathlib

/-
Shallow embedding of pyexodus (src/pyexodus/core.py), a writer for
Exodus-II mesh files built on top of an h5netcdf container.

Modelling conventions:
  * The h5netcdf container state reachable through `self._f` is modelled by
    the structure `ExoFile`: named dimensions become explicit fields, the
    per-entity dimension families `num_el_in_blk{i}` / `num_nod_per_el{i}` /
    `num_side_ss{i}` become association lists keyed by the integer `i`, and
    variables become lists (of rows for 2-d variables).
  * Python `assert`/`KeyError`/`ValueError` failures are modelled by the
    `Except ExoErr` monad.  Every operation of the source validates all of
    its preconditions before performing any mutation, so returning
    `.error e` with no new state is a faithful model of an exception
    leaving the file unchanged.  The error constructors follow the error
    taxonomy of the design (ValidationError / NotFoundError /
    CapacityExhausted); `keyError` stands for a Python `KeyError` raised by
    a dictionary lookup of a dimension or variable that was never created.
  * Fixed-width `|S1` character arrays are modelled as lists of byte values
    (`Bytes`).  An unwritten cell holds the byte 0; numpy drops such cells
    when the row is joined back into a Python byte string, and `bytes.strip`
    then removes ASCII whitespace from both ends - both steps are modelled
    explicitly in `getNameRow`.
  * Floating point payloads (coordinates, times, variable values) are
    modelled as rationals; no verified property depends on rounding.
  * Machine integers stored in the container (ids, status flags,
    connectivity entries) are modelled as `Int`; all values involved are
    far below the int32 range, so no wrap-around modelling is needed.
  * The filesystem existence check of `__init__` and the on-disk layout
    (chunking, compression) belong to the external container and are not
    modelled.
-/

namespace PyExodus

/-- Byte strings: each entry is one byte value (the sources only ever store
single-byte characters, one per `|S1` cell). -/
abbrev Bytes := List Nat

/-- Error taxonomy of the design document, covering the Python exceptions the
source can raise: `validation` for precondition asserts, `notFound` for
missing blocks / side sets / variable names, `capacityExhausted` for a full
status array, `keyError` for access to a dimension or variable that was never
created, and `zeroDivision` for the division by zero that
`put_elem_connectivity` performs when a block has zero nodes per element. -/
inductive ExoErr where
  | validation : String → ExoErr
  | notFound : String → ExoErr
  | capacityExhausted : String → ExoErr
  | keyError : String → ExoErr
  | zeroDivision : ExoErr
deriving DecidableEq, Repr

/-- True exactly on `validation` errors. -/
def ExoErr.isValidation : ExoErr → Bool
  | .validation _ => true
  | _ => false

/-- Python dictionary lookup (first matching key). -/
def dictGet {κ α : Type} [DecidableEq κ] : List (κ × α) → κ → Option α
  | [], _ => none
  | (k', v') :: t, k => if k' = k then some v' else dictGet t k

/-- Python dictionary assignment: overwrite the entry of an existing key,
otherwise append the new entry (insertion order preserved). -/
def dictSet {κ α : Type} [DecidableEq κ] : List (κ × α) → κ → α → List (κ × α)
  | [], k, v => [(k, v)]
  | (k', v') :: t, k, v => if k' = k then (k, v) :: t else (k', v') :: dictSet t k v

/-- One `connect{i}` variable: its `elem_type` attribute and its
(elements × nodes-per-element) integer matrix. -/
structure Conn where
  elem_type : String
  vals : List (List Int)
deriving DecidableEq, Inhabited, Repr

/-- Schema constant: width of every name slot (`len_name` dimension). -/
def len_name : Nat := 33

/-- Schema constant: the advertised `maximum_name_length` file attribute. -/
def maximum_name_length : Nat := 32

/-- State of an open pyexodus file: the named dimensions and variables the
source creates inside the h5netcdf container, plus the fixed creation
parameters.  Indexed variable families (`connect{i}`, `vals_nod_var{i}`,
`vals_elem_var{v}eb{b}`, side-set arrays) are association lists keyed by the
indices baked into the variable names. -/
structure ExoFile where
  numDims : Nat
  numNodes : Nat
  numElems : Nat
  numBlocks : Nat
  numSideSets : Nat
  f_word_size : Nat
  timeStepDim : Nat
  title : String
  coor_names : List Bytes
  coords : List (String × List Rat)
  eb_names : List Bytes
  eb_prop1 : List Int
  eb_status : List Int
  ss_names : List Bytes
  ss_prop1 : List Int
  ss_status : List Int
  numElInBlk : List (Nat × Nat)
  numNodPerEl : List (Nat × Nat)
  connects : List (Nat × Conn)
  numSideSS : List (Nat × Nat)
  elem_ss : List (Nat × List Int)
  side_ss : List (Nat × List Int)
  time_whole : List Rat
  numGloVar : Option Nat
  name_glo_var : List Bytes
  vals_glo_var : List (List Rat)
  numElemVar : Option Nat
  name_elem_var : List Bytes
  valsElemVar : List ((Nat × Nat) × List (List Rat))
  numNodVar : Option Nat
  name_nod_var : List Bytes
  vals_nod_var : List (Nat × List (List Rat))
  closed : Bool
deriving DecidableEq, Inhabited, Repr

/-- Constructor `exodus.__init__` together with `_write_attrs` and
`_create_variables`.  Checks appear in source order: mode, array type,
node-set count, dimensionality, io size.  Freshly created variables carry the
container fill value (byte 0 for character arrays, 0 for numeric arrays);
`eb_prop1` and `ss_prop1` are explicitly initialized to the sentinel -1.
The `num_side_sets` dimension and the three side-set variables exist only
when `numSideSets` is nonzero, exactly as in the source; the coordinate
loop runs over the string "xyz" and therefore always creates three
coordinate arrays.  (The io-size-0 branch resolves to the 64-bit word size;
the file-already-exists assert concerns the filesystem and is not
modelled.) -/
def exodus_init (mode array_type title : String)
    (numDims numNodes numElems numBlocks numNodeSets numSideSets io_size : Nat) :
    Except ExoErr ExoFile :=
  if mode ≠ "w" then .error (.validation "Currently only writing is supported.")
  else if array_type ≠ "numpy" then .error (.validation "array_type must be numpy.")
  else if numNodeSets ≠ 0 then .error (.validation "numNodeSets must be 0 for now.")
  else if ¬(numDims = 2 ∨ numDims = 3) then
    .error (.validation "Only 2 or 3 dimensions are supported.")
  else if ¬(io_size = 0 ∨ io_size = 4 ∨ io_size = 8) then
    .error (.validation "NotImplementedError")
  else .ok {
    numDims := numDims
    numNodes := numNodes
    numElems := numElems
    numBlocks := numBlocks
    numSideSets := numSideSets
    f_word_size := if io_size = 4 then 4 else 8
    timeStepDim := 1
    title := title
    coor_names := List.replicate numDims (List.replicate len_name 0)
    coords := "xyz".toList.map (fun c => ("coord".push c, List.replicate numNodes (0 : Rat)))
    eb_names := List.replicate numBlocks (List.replicate len_name 0)
    eb_prop1 := List.replicate numBlocks (-1)
    eb_status := List.replicate numBlocks 0
    ss_names := if numSideSets ≠ 0 then
        List.replicate numSideSets (List.replicate len_name 0) else []
    ss_prop1 := if numSideSets ≠ 0 then List.replicate numSideSets (-1) else []
    ss_status := if numSideSets ≠ 0 then List.replicate numSideSets 0 else []
    numElInBlk := []
    numNodPerEl := []
    connects := []
    numSideSS := []
    elem_ss := []
    side_ss := []
    time_whole := List.replicate 1 (0 : Rat)
    numGloVar := none
    name_glo_var := []
    vals_glo_var := []
    numElemVar := none
    name_elem_var := []
    valsElemVar := []
    numNodVar := none
    name_nod_var := []
    vals_nod_var := []
    closed := false }

/-- Extracts the file from a successful operation (the scenario theorems
always pair a use of this with an explicit proof that the operation
succeeded). -/
def orDefault (r : Except ExoErr ExoFile) : ExoFile :=
  match r with
  | .ok f => f
  | .error _ => default

/-- Method `put_elem_blk_info`.  Scans `eb_status` for the first zero entry;
its position plus one is the slot index of the new block.  Creates the two
per-block dimensions and the zero-filled `connect{idx}` variable, then claims
the slot by writing 1 to `eb_status` and the caller-supplied external id to
`eb_prop1`.  The external id is nowhere compared against existing entries of
`eb_prop1`. -/
def put_elem_blk_info (f : ExoFile) (id : Int) (elemType : String)
    (numElems numNodesPerElem numAttrsPerElem : Nat) : Except ExoErr ExoFile :=
  if ¬(numElems ≤ f.numElems) then
    .error (.validation "Canont have more elements in the block then globally set.")
  else if numAttrsPerElem ≠ 0 then .error (.validation "Must be 0 for now.")
  else if ¬((0 : Int) ∈ f.eb_status) then
    .error (.capacityExhausted "All element blocks already set.")
  else
    let idx := f.eb_status.findIdx (fun x => x = 0) + 1
    .ok { f with
      numElInBlk := dictSet f.numElInBlk idx numElems
      numNodPerEl := dictSet f.numNodPerEl idx numNodesPerElem
      connects := dictSet f.connects idx
        ⟨elemType, List.replicate numElems (List.replicate numNodesPerElem 0)⟩
      eb_status := f.eb_status.set (idx - 1) 1
      eb_prop1 := f.eb_prop1.set (idx - 1) id }

/-- Result of an operation that, besides succeeding or raising, can also
fail to terminate (the chunked write loop of `put_elem_connectivity` runs
forever when its computed rows-per-chunk count is zero and rows remain). -/
inductive PRes (α : Type) where
  | ok : α → PRes α
  | err : ExoErr → PRes α
  | hang : PRes α
deriving DecidableEq, Repr

/-- Reshape of a flat array of length `ne * nn` into `ne` rows of `nn`. -/
def reshape2 (l : List Int) (ne nn : Nat) : List (List Int) :=
  (List.range ne).map (fun i => (l.drop (i * nn)).take nn)

/-- Row-slice assignment `store[idx : idx + chunk.length] = chunk` of the
container (the source only performs it with the slice inside bounds). -/
def setSlice (store : List (List Int)) (idx : Nat) (chunk : List (List Int)) :
    List (List Int) :=
  store.take idx ++ chunk ++ store.drop (idx + chunk.length)

/-- Rows-per-chunk count of `put_elem_connectivity`:
`int(chunk_size_in_mb * 1024 ** 2 / connectivity.dtype.itemsize / nn)`.
Successive floor divisions of naturals coincide with the Python value. -/
def chunkSizeOf (chunk_size_in_mb itemsize nn : Nat) : Nat :=
  chunk_size_in_mb * 1024 ^ 2 / itemsize / nn

/-- The `while idx < ne` loop of `put_elem_connectivity`: writes the shifted
chunk `_t[idx : idx + cs] + shift` over the stored rows and advances by `cs`.
The positivity proof for `cs` is exactly the loop's termination argument; the
`cs = 0` case is handled by the caller (it diverges in Python). -/
def chunkLoop (t : List (List Int)) (shift : Int) (cs : Nat) (hcs : 0 < cs)
    (store : List (List Int)) (idx : Nat) : List (List Int) :=
  if _h : idx < t.length then
    chunkLoop t shift cs hcs
      (setSlice store idx (((t.drop idx).take cs).map (fun row => row.map (fun x => x + shift))))
      (idx + cs)
  else store
termination_by t.length - idx
decreasing_by omega

/-- Method `put_elem_connectivity`.  Note that the `id` argument is used
directly to form the dimension and variable names `num_el_in_blk{id}`,
`num_nod_per_el{id}` and `connect{id}`: it is the allocator slot index, not
looked up in `eb_prop1`.  With a nonzero `shift_indices` the write goes
through the chunk loop with `chunkSizeOf` rows per chunk (raising
`ZeroDivisionError` when the block has zero nodes per element, and looping
forever when the computed chunk row count is zero while rows remain);
otherwise the whole reshaped array is written in one shot. -/
def put_elem_connectivity (f : ExoFile) (id : Nat) (connectivity : List Int)
    (shift_indices : Int) (chunk_size_in_mb itemsize : Nat) : PRes ExoFile :=
  match dictGet f.numElInBlk id with
  | none => .err (.notFound "Block id does not exist")
  | some ne =>
    match dictGet f.numNodPerEl id with
    | none => .err (.notFound "Block id does not exist")
    | some nn =>
      if connectivity.length ≠ ne * nn then
        .err (.validation "connectivity size mismatch")
      else
        match dictGet f.connects id with
        | none => .err (.keyError "connect variable missing")
        | some c =>
          if shift_indices ≠ 0 then
            if itemsize * nn = 0 then .err .zeroDivision
            else
              let cs := chunkSizeOf chunk_size_in_mb itemsize nn
              let t := reshape2 connectivity ne nn
              if h : 0 < cs then
                let c' := Conn.mk c.elem_type (chunkLoop t shift_indices cs h c.vals 0)
                .ok { f with connects := dictSet f.connects id c' }
              else if ne = 0 then .ok f
              else .hang
          else
            let c' := Conn.mk c.elem_type (reshape2 connectivity ne nn)
            .ok { f with connects := dictSet f.connects id c' }

/-- Method `put_time`: both step bounds are checked, then the value lands at
row `step - 1` of `time_whole`. -/
def put_time (f : ExoFile) (step : Nat) (value : Rat) : Except ExoErr ExoFile :=
  if ¬(0 < step) then .error (.validation "Step must be larger than 0.")
  else if ¬(step ≤ f.timeStepDim) then .error (.validation "step exceeds time_step")
  else .ok { f with time_whole := f.time_whole.set (step - 1) value }

/-- ASCII whitespace bytes removed by Python `bytes.strip`. -/
def isWSByte (b : Nat) : Bool :=
  b = 9 ∨ b = 10 ∨ b = 11 ∨ b = 12 ∨ b = 13 ∨ b = 32

/-- Strip of the whitespace bytes at both ends, as `bytes.strip` does. -/
def stripWS (l : Bytes) : Bytes :=
  ((l.dropWhile isWSByte).reverse.dropWhile isWSByte).reverse

/-- Fixed-width name slot produced by the `put_*_name` methods: the row is
zero-filled, then the name bytes are written left-aligned. -/
def writeNameRow (name : Bytes) : Bytes :=
  name ++ List.replicate (len_name - name.length) 0

/-- Reading one name back, as the `get_*_names` methods do: numpy drops the
zero bytes when joining the `|S1` cells, and `strip` removes ASCII whitespace
from both ends. -/
def getNameRow (row : Bytes) : Bytes :=
  stripWS (row.filter (fun b => b ≠ 0))

/-- Method `set_global_variable_number`: a zero count is a no-op; otherwise
the name array and the shared (time-step × count) value array are created. -/
def set_global_variable_number (f : ExoFile) (number : Nat) : ExoFile :=
  if number = 0 then f
  else { f with
    numGloVar := some number
    name_glo_var := List.replicate number (List.replicate len_name 0)
    vals_glo_var := List.replicate f.timeStepDim (List.replicate number (0 : Rat)) }

/-- Method `put_global_variable_name`: no index bound is checked; the row at
`index - 1` is zero-filled and overwritten.  A name wider than the 33-byte
slot makes the numpy assignment fail (classified as a validation error by the
design's taxonomy). -/
def put_global_variable_name (f : ExoFile) (name : Bytes) (index : Nat) :
    Except ExoErr ExoFile :=
  match f.numGloVar with
  | none => .error (.keyError "name_glo_var")
  | some _ =>
    if len_name < name.length then .error (.validation "name too long")
    else .ok { f with name_glo_var := f.name_glo_var.set (index - 1) (writeNameRow name) }

/-- Method `get_global_variable_names`. -/
def get_global_variable_names (f : ExoFile) : Except ExoErr (List Bytes) :=
  match f.numGloVar with
  | none => .error (.keyError "name_glo_var")
  | some _ => .ok (f.name_glo_var.map getNameRow)

/-- Write of a single cell of a (rows × columns) value array; the source only
reaches this with both indices in range. -/
def set2 (m : List (List Rat)) (i j : Nat) (v : Rat) : List (List Rat) :=
  match m.get? i with
  | some row => m.set i (row.set j v)
  | none => m

/-- Method `put_global_variable_value`: step bounds first, then the name is
resolved to its 0-based column through `get_global_variable_names` (a missing
name raises, as Python `list.index` does), and the cell at
(step - 1, column) is written. -/
def put_global_variable_value (f : ExoFile) (name : Bytes) (step : Nat) (value : Rat) :
    Except ExoErr ExoFile :=
  if ¬(0 < step) then .error (.validation "Step must be larger than 0.")
  else if ¬(step ≤ f.timeStepDim) then .error (.validation "step exceeds time_step")
  else
    match get_global_variable_names f with
    | .error e => .error e
    | .ok names =>
      match names.findIdx? (fun n => n = name) with
      | none => .error (.notFound "name is not in list")
      | some idx => .ok { f with vals_glo_var := set2 f.vals_glo_var (step - 1) idx value }

/-- Method `set_element_variable_number`: only the name array is created;
value arrays appear lazily at first write. -/
def set_element_variable_number (f : ExoFile) (number : Nat) : ExoFile :=
  if number = 0 then f
  else { f with
    numElemVar := some number
    name_elem_var := List.replicate number (List.replicate len_name 0) }

/-- Method `put_element_variable_name` (same row write as the global
catalog). -/
def put_element_variable_name (f : ExoFile) (name : Bytes) (index : Nat) :
    Except ExoErr ExoFile :=
  match f.numElemVar with
  | none => .error (.keyError "name_elem_var")
  | some _ =>
    if len_name < name.length then .error (.validation "name too long")
    else .ok { f with name_elem_var := f.name_elem_var.set (index - 1) (writeNameRow name) }

/-- Method `get_element_variable_names`. -/
def get_element_variable_names (f : ExoFile) : Except ExoErr (List Bytes) :=
  match f.numElemVar with
  | none => .error (.keyError "name_elem_var")
  | some _ => .ok (f.name_elem_var.map getNameRow)

/-- Method `put_element_variable_values`: step bounds, block existence, name
resolution (1-based), then the `vals_elem_var{idx}eb{blockId}` array is
created zero-filled if absent and its row `step - 1` is overwritten. -/
def put_element_variable_values (f : ExoFile) (blockId : Nat) (name : Bytes)
    (step : Nat) (values : List Rat) : Except ExoErr ExoFile :=
  if ¬(0 < step) then .error (.validation "Step must be larger than 0.")
  else if ¬(step ≤ f.timeStepDim) then .error (.validation "step exceeds time_step")
  else
    match dictGet f.numElInBlk blockId with
    | none => .error (.notFound "Block id not found.")
    | some nb =>
      match get_element_variable_names f with
      | .error e => .error e
      | .ok names =>
        match names.findIdx? (fun n => n = name) with
        | none => .error (.notFound "name is not in list")
        | some i =>
          let key := (i + 1, blockId)
          let rows := match dictGet f.valsElemVar key with
            | some r => r
            | none => List.replicate f.timeStepDim (List.replicate nb (0 : Rat))
          .ok { f with valsElemVar := dictSet f.valsElemVar key (rows.set (step - 1) values) }

/-- Method `set_node_variable_number`: creates the name array and one
(time-step × node-count) value array per slot, keyed 1-based. -/
def set_node_variable_number (f : ExoFile) (number : Nat) : ExoFile :=
  if number = 0 then f
  else { f with
    numNodVar := some number
    name_nod_var := List.replicate number (List.replicate len_name 0)
    vals_nod_var := (List.range number).map
      (fun i => (i + 1, List.replicate f.timeStepDim (List.replicate f.numNodes (0 : Rat)))) }

/-- Method `put_node_variable_name`: the only name writer with an index bound
check (against the `num_nod_var` dimension), then the same row write. -/
def put_node_variable_name (f : ExoFile) (name : Bytes) (index : Nat) :
    Except ExoErr ExoFile :=
  match f.numNodVar with
  | none => .error (.keyError "num_nod_var")
  | some n =>
    if ¬(index ≤ n) then .error (.validation "index out of range")
    else if len_name < name.length then .error (.validation "name too long")
    else .ok { f with name_nod_var := f.name_nod_var.set (index - 1) (writeNameRow name) }

/-- Method `get_node_variable_names`. -/
def get_node_variable_names (f : ExoFile) : Except ExoErr (List Bytes) :=
  match f.numNodVar with
  | none => .error (.keyError "name_nod_var")
  | some _ => .ok (f.name_nod_var.map getNameRow)

/-- Method `put_node_variable_values`: step bounds, 1-based name resolution,
then row `step - 1` of `vals_nod_var{idx}` is overwritten. -/
def put_node_variable_values (f : ExoFile) (name : Bytes) (step : Nat)
    (values : List Rat) : Except ExoErr ExoFile :=
  if ¬(0 < step) then .error (.validation "Step must be larger than 0.")
  else if ¬(step ≤ f.timeStepDim) then .error (.validation "step exceeds time_step")
  else
    match get_node_variable_names f with
    | .error e => .error e
    | .ok names =>
      match names.findIdx? (fun n => n = name) with
      | none => .error (.notFound "name is not in list")
      | some i =>
        match dictGet f.vals_nod_var (i + 1) with
        | none => .error (.keyError "vals_nod_var missing")
        | some rows =>
          .ok { f with vals_nod_var := dictSet f.vals_nod_var (i + 1) (rows.set (step - 1) values) }

/-- Method `put_side_set_params`, in source order: the distribution-factor
check, the duplicate-id check against the whole of `ss_prop1` (which the
schema initializer filled with the sentinel -1), the claimed-slot count and
capacity check, then the two new arrays and the slot claim.  Accessing
`ss_prop1` when no side-set capacity was declared raises `KeyError`. -/
def put_side_set_params (f : ExoFile) (id : Int) (numSetSides numSetDistFacts : Nat) :
    Except ExoErr ExoFile :=
  if numSetDistFacts ≠ 0 then .error (.validation "Only 0 is currently supported.")
  else if f.numSideSets = 0 then .error (.keyError "ss_prop1")
  else if id ∈ f.ss_prop1 then .error (.validation "Side set id already exists.")
  else
    let count := (f.ss_status.filter (fun x => 0 < x)).length
    if ¬(count < f.numSideSets) then
      .error (.capacityExhausted "Maximum number of side sets reached.")
    else
      let idx := count + 1
      .ok { f with
        numSideSS := dictSet f.numSideSS idx numSetSides
        elem_ss := dictSet f.elem_ss idx (List.replicate numSetSides 0)
        side_ss := dictSet f.side_ss idx (List.replicate numSetSides 0)
        ss_status := f.ss_status.set (idx - 1) 1
        ss_prop1 := f.ss_prop1.set (idx - 1) id }

/-- Close of the underlying container; closing an already closed handle is
the error the `try` blocks of `close` and `__del__` guard against. -/
def containerClose (f : ExoFile) : Except ExoErr ExoFile :=
  if f.closed then .error (.keyError "file already closed")
  else .ok { f with closed := true }

/-- Method `close`: the container close is wrapped in a catch-all handler, so
the method is total - any container failure is swallowed and the state is
left as it was. -/
def close (f : ExoFile) : ExoFile :=
  match containerClose f with
  | .ok g => g
  | .error _ => f

/-- Method `__del__` (also reached through `__exit__`): same catch-all
wrapped container close as `close`. -/
def exodus_del (f : ExoFile) : ExoFile :=
  match containerClose f with
  | .ok g => g
  | .error _ => f

/-- Extraction of the file from a `PRes`, used to chain scenario states. -/
def orDefaultP (r : PRes ExoFile) : ExoFile :=
  match r with
  | .ok f => f
  | _ => default

/-- Elementwise `matrix + k` of numpy, used to state what the connectivity
writes store. -/
def shiftRows (k : Int) (m : List (List Int)) : List (List Int) :=
  m.map (fun row => row.map (fun x => x + k))

/-- The file with the `connect{id}` variable replaced, used to state the
effect of connectivity writes. -/
def setConnVar (f : ExoFile) (id : Nat) (c : Conn) : ExoFile :=
  { f with connects := dictSet f.connects id c }

/-- True exactly when the operation raised a validation error. -/
def resIsValidation (r : Except ExoErr ExoFile) : Bool :=
  match r with
  | .error e => e.isValidation
  | .ok _ => false

/-- Argument tuple of one `put_elem_blk_info` call. -/
structure BlockParams where
  id : Int
  elemType : String
  numElems : Nat
  numNodesPerElem : Nat
  numAttrsPerElem : Nat
deriving DecidableEq, Inhabited, Repr

/-- A sequence of `put_elem_blk_info` calls, stopped at the first failure. -/
def allocBlocks (f : ExoFile) : List BlockParams → Except ExoErr ExoFile
  | [] => .ok f
  | p :: ps =>
    match put_elem_blk_info f p.id p.elemType p.numElems p.numNodesPerElem
      p.numAttrsPerElem with
    | .error e => .error e
    | .ok g => allocBlocks g ps

/-- Small concrete 3-d file: 4 nodes, 1 element, 1 block, no side sets. -/
def smallFile3d : ExoFile := orDefault (exodus_init "w" "numpy" "" 3 4 1 1 0 0 0)

/-- Small concrete 2-d file used to count coordinate arrays. -/
def smallFile2d : ExoFile := orDefault (exodus_init "w" "numpy" "" 2 4 1 1 0 0 0)

/-- State after allocating the tetrahedral block with external id 100. -/
def blk100File : ExoFile := orDefault (put_elem_blk_info smallFile3d 100 "tet" 1 4 0)

/-- State after writing the connectivity of that block at slot index 1. -/
def connWrittenFile : ExoFile :=
  orDefaultP (put_elem_connectivity blk100File 1 [1, 2, 3, 4] 0 128 4)

/-- A block whose rows are wider than one binary megabyte (262145 int32
entries per row), so a 1 MB chunk budget admits zero rows per chunk. -/
def wideBlockFile : ExoFile := orDefault (put_elem_blk_info smallFile3d 1 "tet" 1 262145 0)

/-- A 1-element, 2-nodes-per-element block used for concrete chunked
writes. -/
def quadBlockFile : ExoFile := orDefault (put_elem_blk_info smallFile3d 9 "quad" 1 2 0)

/-- One declared global variable. -/
def gvarFile : ExoFile := set_global_variable_number smallFile3d 1

/-- The global variable named by the two bytes "a " (trailing space). -/
def gvarSpaceNameFile : ExoFile := orDefault (put_global_variable_name gvarFile [97, 32] 1)

/-- Fresh file with capacity for two element blocks. -/
def twoBlockFile : ExoFile := orDefault (exodus_init "w" "numpy" "" 3 4 2 2 0 0 0)

/-- Fresh file with capacity for two side sets. -/
def twoSSFile : ExoFile := orDefault (exodus_init "w" "numpy" "" 3 4 1 1 0 2 0)

/-- One of the two side-set slots claimed with external id 5. -/
def ssClaimedFile : ExoFile := orDefault (put_side_set_params twoSSFile 5 3 0)

/-- One of the two block slots claimed with external id 7. -/
def blk7File : ExoFile := orDefault (put_elem_blk_info twoBlockFile 7 "hex" 1 3 0)

/-- File with one global, one element and one node variable declared, on top
of the allocated block. -/
def varDeclFile : ExoFile :=
  set_node_variable_number (set_element_variable_number
    (set_global_variable_number blk100File 1) 1) 1

/-- The three variable catalogs named "g", "e" and "n". -/
def varNamedFile : ExoFile :=
  orDefault (put_node_variable_name
    (orDefault (put_element_variable_name
      (orDefault (put_global_variable_name varDeclFile [103] 1)) [101] 1)) [110] 1)

/-- Fresh 2-d file with capacity for one side set. -/
def oneSSFile : ExoFile := orDefault (exodus_init "w" "numpy" "" 2 3 1 1 0 1 0)

/-! Helper lemmas about the container-dictionary model. -/

theorem dictGet_dictSet_self {κ α : Type} [DecidableEq κ] (l : List (κ × α)) (k : κ) (v : α) :
    dictGet (dictSet l k v) k = some v := by
  induction l with
  | nil => simp [dictGet, dictSet]
  | cons p t ih =>
    rcases p with ⟨k', v'⟩
    by_cases h : k' = k
    · simp [dictGet, dictSet, h]
    · simp [dictGet, dictSet, h, ih]

theorem dictGet_dictSet_ne {κ α : Type} [DecidableEq κ] (l : List (κ × α)) (k k' : κ) (v : α)
    (h : k' ≠ k) : dictGet (dictSet l k v) k' = dictGet l k' := by
  induction l with
  | nil =>
    simp only [dictSet, dictGet]
    rw [if_neg (Ne.symm h)]
  | cons p t ih =>
    rcases p with ⟨k₀, v₀⟩
    simp only [dictSet]
    by_cases h0 : k₀ = k
    · subst h0
      rw [if_pos rfl]
      simp only [dictGet]
      rw [if_neg (Ne.symm h), if_neg (Ne.symm h)]
    · rw [if_neg h0]
      simp only [dictGet]
      by_cases h1 : k₀ = k'
      · rw [if_pos h1, if_pos h1]
      · rw [if_neg h1, if_neg h1, ih]

/-! Helper lemmas about fixed-width name storage. -/

theorem dropWhile_eq_self_of_head (p : Nat → Bool) (l : Bytes)
    (h : ∀ b, l.head? = some b → p b = false) : l.dropWhile p = l := by
  cases l with
  | nil => rfl
  | cons a t =>
    rw [List.dropWhile_cons, h a rfl]
    simp

theorem stripWS_eq_self (l : Bytes)
    (hh : ∀ b, l.head? = some b → isWSByte b = false)
    (hl : ∀ b, l.getLast? = some b → isWSByte b = false) : stripWS l = l := by
  unfold stripWS
  rw [dropWhile_eq_self_of_head _ _ hh]
  rw [dropWhile_eq_self_of_head _ _ (by rw [List.head?_reverse]; exact hl)]
  exact List.reverse_reverse l

theorem filter_nonzero_replicate_zero (n : Nat) :
    (List.replicate n 0).filter (fun b => decide (b ≠ 0)) = [] := by
  induction n with
  | zero => rfl
  | succ m ih => rw [List.replicate_succ, List.filter_cons]; simp [ih]

/-- Round trip of one fixed-width name slot: what `put_*_name` writes,
`get_*_names` reads back unchanged, provided no byte of the name is zero and
the name neither starts nor ends with ASCII whitespace. -/
theorem getNameRow_writeNameRow (name : Bytes)
    (hz : ∀ b ∈ name, b ≠ 0)
    (hh : ∀ b, name.head? = some b → isWSByte b = false)
    (hl : ∀ b, name.getLast? = some b → isWSByte b = false) :
    getNameRow (writeNameRow name) = name := by
  unfold getNameRow writeNameRow
  rw [List.filter_append]
  rw [filter_nonzero_replicate_zero]
  rw [List.append_nil]
  rw [List.filter_eq_self.mpr (by intro a ha; simpa using hz a ha)]
  exact stripWS_eq_self name hh hl

/-- Inversion of a successful creation: the fields of the file
`exodus_init` returns. -/
theorem exodus_init_fields (title : String) (d nodes elems blocks ss io : Nat)
    (f : ExoFile) (hd : d = 2 ∨ d = 3) (hio : io = 0 ∨ io = 4 ∨ io = 8)
    (h0 : exodus_init "w" "numpy" title d nodes elems blocks 0 ss io = .ok f) :
    f.eb_status = List.replicate blocks 0 ∧
    f.eb_prop1 = List.replicate blocks (-1) ∧
    f.numElems = elems ∧ f.numSideSets = ss ∧ f.numBlocks = blocks ∧
    f.ss_prop1 = (if ss ≠ 0 then List.replicate ss (-1) else []) ∧
    f.ss_status = (if ss ≠ 0 then List.replicate ss 0 else []) ∧
    f.timeStepDim = 1 ∧ f.numElInBlk = [] := by
  rw [exodus_init, if_neg (by simp), if_neg (by simp), if_neg (by simp),
    if_neg (not_not_intro hd), if_neg (not_not_intro hio)] at h0
  injection h0 with h
  subst h
  exact ⟨rfl, rfl, rfl, rfl, rfl, rfl, rfl, rfl, rfl⟩

/-- Shared fact: `put_side_set_params` checks the duplicate id before the
capacity check and before any mutation, so an id already present anywhere in
`ss_prop1` is always rejected with the duplicate-id validation error. -/
theorem ss_duplicate_rejected (f : ExoFile) (id : Int) (numSetSides : Nat)
    (hlen : f.ss_prop1.length = f.numSideSets) (hdup : id ∈ f.ss_prop1) :
    put_side_set_params f id numSetSides 0 =
      .error (.validation "Side set id already exists.") := by
  have h0 : ¬(f.numSideSets = 0) := by
    intro h
    rw [h] at hlen
    rw [List.length_eq_zero.mp hlen] at hdup
    simp at hdup
  simp [put_side_set_params, h0, hdup]

/-- C1 counterexample: a file created with dimensionality 2 succeeds but holds
three per-axis coordinate value arrays, not two - `_create_variables` loops
over the literal string "xyz" regardless of `num_dim`. -/
theorem creation_coord_count_counterexample :
    exodus_init "w" "numpy" "" 2 4 1 1 0 0 0 = .ok smallFile2d ∧
    smallFile2d.coords.length = 3 ∧ ¬(smallFile2d.coords.length = 2) := by
  refine ⟨rfl, rfl, by decide⟩

/-- C1 (amended): for every valid dimensionality d in {2,3}, constructing an
ExodusFile succeeds and creates exactly three per-axis coordinate value
arrays (coordx, coordy, coordz), regardless of d. -/
theorem creation_coord_arrays (title : String) (d nodes elems blocks ss io : Nat)
    (hd : d = 2 ∨ d = 3) (hio : io = 0 ∨ io = 4 ∨ io = 8) :
    ∃ f, exodus_init "w" "numpy" title d nodes elems blocks 0 ss io = .ok f ∧
      f.coords.length = 3 ∧ f.coords.map Prod.fst = ["coordx", "coordy", "coordz"] ∧
      f.numDims = d := by
  rcases hd with h | h <;> rcases hio with h2 | h2 | h2 <;> subst h <;> subst h2 <;>
    exact ⟨_, rfl, rfl, rfl, rfl⟩

/-- Witness for the amended C1 theorem at d = 2. -/
theorem creation_coord_arrays_witness :
    ∃ f, exodus_init "w" "numpy" "" 2 4 1 1 0 0 0 = .ok f ∧
      f.coords.length = 3 ∧ f.coords.map Prod.fst = ["coordx", "coordy", "coordz"] ∧
      f.numDims = 2 :=
  creation_coord_arrays "" 2 4 1 1 0 0 (Or.inl rfl) (Or.inl rfl)

/-- C2 counterexample: in the concrete scenario the allocated block has
external id 100 at slot index 1, and the connectivity write addressed by the
block's id (100) fails - `put_elem_connectivity` uses its id argument as the
slot index in the dimension names, so no block named 100 exists. -/
theorem block_scenario_counterexample :
    put_elem_blk_info smallFile3d 100 "tet" 1 4 0 = .ok blk100File ∧
    put_elem_connectivity blk100File 100 [1, 2, 3, 4] 0 128 4 =
      PRes.err (.notFound "Block id does not exist") := by
  refine ⟨rfl, rfl⟩

/-- C2 (amended): in the file created with numDims=3, numNodes=4, numElems=1,
numBlocks=1, numSideSets=0, after allocating one tetrahedral block with
external id 100 (1 element, 4 nodes per element) and writing the
connectivity [1,2,3,4] addressed by the block's slot index 1 (the id
`put_elem_connectivity` actually keys on), the state satisfies
eb_prop1[0] = 100, eb_status[0] = 1, and connect1 has shape (1,4) with
values [[1,2,3,4]]. -/
theorem block_scenario :
    exodus_init "w" "numpy" "" 3 4 1 1 0 0 0 = .ok smallFile3d ∧
    put_elem_blk_info smallFile3d 100 "tet" 1 4 0 = .ok blk100File ∧
    put_elem_connectivity blk100File 1 [1, 2, 3, 4] 0 128 4 = PRes.ok connWrittenFile ∧
    connWrittenFile.eb_prop1[0]? = some 100 ∧
    connWrittenFile.eb_status[0]? = some 1 ∧
    dictGet connWrittenFile.connects 1 = some (Conn.mk "tet" [[1, 2, 3, 4]]) ∧
    (Conn.mk "tet" [[1, 2, 3, 4]]).vals.length = 1 ∧
    (Conn.mk "tet" [[1, 2, 3, 4]]).vals.map List.length = [4] := by
  refine ⟨rfl, rfl, rfl, rfl, rfl, rfl, rfl, rfl⟩

/-- C9: closing is idempotent and never raises - `close` and `__del__` wrap
the container close in a catch-all handler, so both are total functions, and
a second close (by either path) leaves the state of the first close. -/
theorem close_idempotent (f : ExoFile) :
    close (close f) = close f ∧ exodus_del (close f) = close f ∧
    (close f).closed = true := by
  by_cases h : f.closed <;> simp [close, exodus_del, containerClose, h]

/-- C6: allocating a side set whose external id is already present in
`ss_prop1` fails with the duplicate-id validation error, regardless of how
many free slots remain; every check of `put_side_set_params` precedes every
mutation, so the error leaves the file unchanged. -/
theorem side_set_duplicate_rejected (f : ExoFile) (id : Int) (numSetSides : Nat)
    (hlen : f.ss_prop1.length = f.numSideSets) (hdup : id ∈ f.ss_prop1) :
    put_side_set_params f id numSetSides 0 =
      .error (.validation "Side set id already exists.") :=
  ss_duplicate_rejected f id numSetSides hlen hdup

/-- Witness for C6: one of two side-set slots is claimed with id 5, a free
slot remains, and re-allocating id 5 is rejected. -/
theorem side_set_duplicate_rejected_witness :
    ssClaimedFile.ss_prop1.length = ssClaimedFile.numSideSets ∧
    (5 : Int) ∈ ssClaimedFile.ss_prop1 ∧
    put_side_set_params ssClaimedFile 5 3 0 =
      .error (.validation "Side set id already exists.") :=
  ⟨by decide, by decide,
    side_set_duplicate_rejected ssClaimedFile 5 3 (by decide) (by decide)⟩

/-- C10: in a freshly created file with side-set capacity n ≥ 1, `ss_prop1`
holds the sentinel -1 at every slot, so allocating a side set with external
id -1 is rejected by the duplicate-id check even though no slot is
claimed. -/
theorem fresh_file_rejects_sentinel_id (title : String)
    (d nodes elems blocks n s io : Nat) (f : ExoFile)
    (hd : d = 2 ∨ d = 3) (hio : io = 0 ∨ io = 4 ∨ io = 8) (hn : 1 ≤ n)
    (h0 : exodus_init "w" "numpy" title d nodes elems blocks 0 n io = .ok f) :
    f.ss_prop1 = List.replicate n (-1) ∧
    put_side_set_params f (-1) s 0 =
      .error (.validation "Side set id already exists.") := by
  have hn0 : ¬(n = 0) := by omega
  obtain ⟨-, -, -, hss, -, hp, -, -, -⟩ :=
    exodus_init_fields title d nodes elems blocks n io f hd hio h0
  rw [if_pos hn0] at hp
  refine ⟨hp, ss_duplicate_rejected f (-1) s ?_ ?_⟩
  · rw [hp, hss, List.length_replicate]
  · rw [hp]
    exact List.mem_replicate.mpr ⟨hn0, rfl⟩

/-- Witness for C10 at side-set capacity 1 in a 2-d file. -/
theorem fresh_file_rejects_sentinel_id_witness :
    oneSSFile.ss_prop1 = List.replicate 1 (-1) ∧
    put_side_set_params oneSSFile (-1) 4 0 =
      .error (.validation "Side set id already exists.") :=
  fresh_file_rejects_sentinel_id "" 2 3 1 1 1 4 0 oneSSFile
    (Or.inl rfl) (Or.inl rfl) (by decide) rfl

/-! Helper lemmas about the first-free-slot scan over status arrays whose
first k entries are claimed (value 1) and whose remaining m entries are
free (value 0). -/

theorem findIdx_status (k m : Nat) (hm : 0 < m) :
    (List.replicate k (1 : Int) ++ List.replicate m 0).findIdx (fun x => x = 0) = k := by
  induction k with
  | zero =>
    obtain ⟨m', rfl⟩ : ∃ m', m = m' + 1 := ⟨m - 1, by omega⟩
    simp [List.replicate_succ, List.findIdx_cons]
  | succ k ih =>
    rw [List.replicate_succ, List.cons_append, List.findIdx_cons]
    simpa using ih

theorem mem_status (k m : Nat) :
    (0 : Int) ∈ List.replicate k (1 : Int) ++ List.replicate m 0 ↔ 0 < m := by
  rw [List.mem_append]
  constructor
  · rintro (h | h)
    · exact absurd (List.mem_replicate.mp h).2 (by decide)
    · have := (List.mem_replicate.mp h).1
      omega
  · intro h
    exact Or.inr (List.mem_replicate.mpr ⟨by omega, rfl⟩)

theorem status_set (k m : Nat) (hm : 0 < m) :
    (List.replicate k (1 : Int) ++ List.replicate m 0).set k 1 =
      List.replicate (k + 1) (1 : Int) ++ List.replicate (m - 1) 0 := by
  obtain ⟨m', rfl⟩ : ∃ m', m = m' + 1 := ⟨m - 1, by omega⟩
  rw [List.set_append, if_neg (by simp)]
  rw [List.length_replicate, Nat.sub_self, Nat.add_sub_cancel]
  rw [List.replicate_succ 0 m', List.set_cons_zero]
  rw [List.replicate_succ', List.append_assoc, List.singleton_append]

theorem prop_set (ids : List Int) (m : Nat) (v : Int) (hm : 0 < m) :
    (ids ++ List.replicate m (-1 : Int)).set ids.length v =
      (ids ++ [v]) ++ List.replicate (m - 1) (-1) := by
  obtain ⟨m', rfl⟩ : ∃ m', m = m' + 1 := ⟨m - 1, by omega⟩
  rw [List.set_append, if_neg (by simp)]
  simp [List.replicate_succ, List.append_assoc]

/-- One successful `put_elem_blk_info` step from a state whose status array
has exactly its first k slots claimed: the call claims slot k + 1. -/
theorem put_elem_blk_info_step (g : ExoFile) (p : BlockParams) (k m : Nat)
    (hm : 0 < m)
    (hp1 : p.numElems ≤ g.numElems) (hp2 : p.numAttrsPerElem = 0)
    (hst : g.eb_status = List.replicate k 1 ++ List.replicate m 0) :
    put_elem_blk_info g p.id p.elemType p.numElems p.numNodesPerElem p.numAttrsPerElem =
      .ok { g with
        numElInBlk := dictSet g.numElInBlk (k + 1) p.numElems
        numNodPerEl := dictSet g.numNodPerEl (k + 1) p.numNodesPerElem
        connects := dictSet g.connects (k + 1)
          (Conn.mk p.elemType
            (List.replicate p.numElems (List.replicate p.numNodesPerElem 0)))
        eb_status := g.eb_status.set k 1
        eb_prop1 := g.eb_prop1.set k p.id } := by
  have hmem : (0 : Int) ∈ g.eb_status := by
    rw [hst]
    exact (mem_status k m).mpr hm
  have hfind : g.eb_status.findIdx (fun x => x = 0) = k := by
    rw [hst]
    exact findIdx_status k m hm
  rw [put_elem_blk_info, if_neg (not_not_intro hp1), if_neg (not_not_intro hp2),
    if_neg (not_not_intro hmem)]
  simp only [hfind, Nat.add_sub_cancel]

/-- Invariant of a run of successful allocations: starting from a state with
the first k slots claimed (holding the ids `ids`) and m free slots, a list of
at most m valid parameter tuples succeeds, extends the claimed prefix in call
order, installs the per-block dimensions under the slot indices
k+1, k+2, ..., and leaves previously installed dimensions unchanged. -/
theorem allocBlocks_general (elems : Nat) (ps : List BlockParams) :
    ∀ (g : ExoFile) (k m : Nat) (ids : List Int),
    (∀ p ∈ ps, p.numElems ≤ elems ∧ p.numAttrsPerElem = 0) →
    g.numElems = elems →
    g.eb_status = List.replicate k 1 ++ List.replicate m 0 →
    g.eb_prop1 = ids ++ List.replicate m (-1) →
    ids.length = k →
    ps.length ≤ m →
    ∃ fN, allocBlocks g ps = .ok fN ∧
      fN.eb_status = List.replicate (k + ps.length) 1 ++ List.replicate (m - ps.length) 0 ∧
      fN.eb_prop1 = (ids ++ ps.map (fun p => p.id)) ++ List.replicate (m - ps.length) (-1) ∧
      fN.numElems = elems ∧
      (∀ w, w ≤ k → dictGet fN.numElInBlk w = dictGet g.numElInBlk w) ∧
      (∀ j p, ps[j]? = some p → dictGet fN.numElInBlk (k + 1 + j) = some p.numElems) := by
  induction ps with
  | nil =>
    intro g k m ids hval hge hst hpr hlen hm
    refine ⟨g, rfl, by simpa using hst, by simpa using hpr, hge,
      fun w _ => rfl, fun j p hj => by simp at hj⟩
  | cons p ps ih =>
    intro g k m ids hval hge hst hpr hlen hm
    have hm0 : 0 < m := by
      simp only [List.length_cons] at hm
      omega
    have hp := hval p (by simp)
    have hstep := put_elem_blk_info_step g p k m hm0 (hge ▸ hp.1) hp.2 hst
    obtain ⟨fN, hfold, hst', hpr', hne', hpres, hdims⟩ :=
      ih { g with
            numElInBlk := dictSet g.numElInBlk (k + 1) p.numElems
            numNodPerEl := dictSet g.numNodPerEl (k + 1) p.numNodesPerElem
            connects := dictSet g.connects (k + 1)
              (Conn.mk p.elemType
                (List.replicate p.numElems (List.replicate p.numNodesPerElem 0)))
            eb_status := g.eb_status.set k 1
            eb_prop1 := g.eb_prop1.set k p.id }
        (k + 1) (m - 1) (ids ++ [p.id])
        (fun q hq => hval q (by simp [hq]))
        hge
        (by
          show g.eb_status.set k 1 = _
          rw [hst]
          exact status_set k m hm0)
        (by
          show g.eb_prop1.set k p.id = _
          rw [hpr, ← hlen]
          exact prop_set ids m p.id hm0)
        (by simp [hlen])
        (by
          simp only [List.length_cons] at hm
          omega)
    refine ⟨fN, ?_, ?_, ?_, hne', ?_, ?_⟩
    · simp only [allocBlocks, hstep]
      exact hfold
    · rw [hst']
      have e1 : k + 1 + ps.length = k + (p :: ps).length := by
        simp only [List.length_cons]
        omega
      have e2 : m - 1 - ps.length = m - (p :: ps).length := by
        simp only [List.length_cons]
        omega
      rw [e1, e2]
    · rw [hpr']
      simp only [List.map_cons, List.length_cons]
      have e2 : m - 1 - ps.length = m - (ps.length + 1) := by omega
      rw [e2, List.append_assoc ids [p.id], List.singleton_append]
    · intro w hw
      rw [hpres w (by omega)]
      exact dictGet_dictSet_ne g.numElInBlk (k + 1) w p.numElems (by omega)
    · intro j q hj
      cases j with
      | zero =>
        simp only [List.getElem?_cons_zero, Option.some.injEq] at hj
        subst hj
        rw [show k + 1 + 0 = k + 1 by omega, hpres (k + 1) (by omega)]
        exact dictGet_dictSet_self g.numElInBlk (k + 1) p.numElems
      | succ j =>
        simp only [List.getElem?_cons_succ] at hj
        have := hdims j q hj
        rw [show k + 1 + (j + 1) = k + 1 + 1 + j by omega]
        exact this

/-- C5: in a file created with block capacity N, a sequence of N valid block
allocations succeeds, assigns slot indices 1..N in call order (the k-th call
claims the first zero status entry, at position k, hence slot index k), and
records the external ids in `eb_prop1` in call order; the (N+1)-th
allocation fails with the capacity-exhausted error. -/
theorem block_allocation_sequence (N : Nat) (ps : List BlockParams) (q : BlockParams)
    (title : String) (d nodes elems ss io : Nat) (f0 : ExoFile)
    (hd : d = 2 ∨ d = 3) (hio : io = 0 ∨ io = 4 ∨ io = 8)
    (h0 : exodus_init "w" "numpy" title d nodes elems N 0 ss io = .ok f0)
    (hN : ps.length = N)
    (hps : ∀ p ∈ ps, p.numElems ≤ elems ∧ p.numAttrsPerElem = 0)
    (hq1 : q.numElems ≤ elems) (hq2 : q.numAttrsPerElem = 0) :
    ∃ fN, allocBlocks f0 ps = .ok fN ∧
      fN.eb_status = List.replicate N 1 ∧
      fN.eb_prop1 = ps.map (fun p => p.id) ∧
      (∀ j p, ps[j]? = some p → dictGet fN.numElInBlk (j + 1) = some p.numElems) ∧
      put_elem_blk_info fN q.id q.elemType q.numElems q.numNodesPerElem q.numAttrsPerElem =
        .error (.capacityExhausted "All element blocks already set.") := by
  obtain ⟨hst, hpr, hne, -, -, -, -, -, -⟩ :=
    exodus_init_fields title d nodes elems N ss io f0 hd hio h0
  obtain ⟨fN, hfold, hst', hpr', hne', -, hdims⟩ :=
    allocBlocks_general elems ps f0 0 N []
      hps hne (by simpa using hst) (by simpa using hpr) rfl (le_of_eq hN)
  have hstN : fN.eb_status = List.replicate N 1 := by
    rw [hst', hN]
    simp
  refine ⟨fN, hfold, hstN, ?_, ?_, ?_⟩
  · rw [hpr', hN]
    simp
  · intro j p hj
    have := hdims j p hj
    rwa [show 0 + 1 + j = j + 1 by omega] at this
  · have hnomem : ¬((0 : Int) ∈ fN.eb_status) := by
      rw [hstN]
      simp only [List.mem_replicate]
      rintro ⟨-, h⟩
      exact absurd h (by decide)
    rw [put_elem_blk_info, if_neg (not_not_intro (hne' ▸ hq1)),
      if_neg (not_not_intro hq2), if_pos hnomem]

/-- Witness for C5 at capacity N = 2 with ids 10, 20 and overflow id 30. -/
theorem block_allocation_sequence_witness :
    ∃ fN, allocBlocks twoBlockFile
        [BlockParams.mk 10 "a" 1 3 0, BlockParams.mk 20 "b" 2 3 0] = .ok fN ∧
      fN.eb_status = List.replicate 2 1 ∧
      fN.eb_prop1 = [BlockParams.mk 10 "a" 1 3 0, BlockParams.mk 20 "b" 2 3 0].map
        (fun p => p.id) ∧
      (∀ j p, [BlockParams.mk 10 "a" 1 3 0, BlockParams.mk 20 "b" 2 3 0][j]? = some p →
        dictGet fN.numElInBlk (j + 1) = some p.numElems) ∧
      put_elem_blk_info fN 30 "c" 1 3 0 =
        .error (.capacityExhausted "All element blocks already set.") :=
  block_allocation_sequence 2 [BlockParams.mk 10 "a" 1 3 0, BlockParams.mk 20 "b" 2 3 0]
    (BlockParams.mk 30 "c" 1 3 0) "" 3 4 2 0 0 twoBlockFile
    (Or.inr rfl) (Or.inl rfl) rfl rfl (by decide) (by decide) (by decide)

/-- C4 counterexample: the two-byte name "a " (a, space) has length 2, far
under the name width, yet writing it with `put_global_variable_name` and
reading back with `get_global_variable_names` yields "a" - `strip` removes
the trailing space, so the original string is not recovered. -/
theorem name_roundtrip_counterexample :
    put_global_variable_name gvarFile [97, 32] 1 = .ok gvarSpaceNameFile ∧
    get_global_variable_names gvarSpaceNameFile = .ok [[97]] ∧
    ¬(([97] : Bytes) = [97, 32]) := by
  refine ⟨rfl, rfl, by decide⟩

/-- C4 (amended): for every variable-name catalog (global, element, node) and
every valid 1-based index within the declared count, writing a name via the
put-name operation and reading via the get-names operation yields the
original string at that position, for every name up to the 33-byte slot width
(so including names of exactly the maximum name length, which are preserved
in full and not truncated) - provided the name consists of nonzero bytes and
neither starts nor ends with ASCII whitespace, which the read path strips. -/
theorem name_roundtrip (f : ExoFile) (name : Bytes) (index g ev nv : Nat)
    (hlen : name.length ≤ len_name)
    (hz : ∀ b ∈ name, b ≠ 0)
    (hh : ∀ b, name.head? = some b → isWSByte b = false)
    (hl : ∀ b, name.getLast? = some b → isWSByte b = false)
    (hg : f.numGloVar = some g) (hge : f.name_glo_var.length = g)
    (he : f.numElemVar = some ev) (hee : f.name_elem_var.length = ev)
    (hn : f.numNodVar = some nv) (hne : f.name_nod_var.length = nv)
    (h1 : 1 ≤ index) (hig : index ≤ g) (hie : index ≤ ev) (hin : index ≤ nv) :
    (∃ f', put_global_variable_name f name index = .ok f' ∧
      ∃ ns, get_global_variable_names f' = .ok ns ∧ ns[index - 1]? = some name) ∧
    (∃ f', put_element_variable_name f name index = .ok f' ∧
      ∃ ns, get_element_variable_names f' = .ok ns ∧ ns[index - 1]? = some name) ∧
    (∃ f', put_node_variable_name f name index = .ok f' ∧
      ∃ ns, get_node_variable_names f' = .ok ns ∧ ns[index - 1]? = some name) := by
  have hrow := getNameRow_writeNameRow name hz hh hl
  have hnot : ¬(len_name < name.length) := not_lt.mpr hlen
  refine ⟨
    ⟨{ f with name_glo_var := f.name_glo_var.set (index - 1) (writeNameRow name) }, ?_,
      (f.name_glo_var.set (index - 1) (writeNameRow name)).map getNameRow, ?_, ?_⟩,
    ⟨{ f with name_elem_var := f.name_elem_var.set (index - 1) (writeNameRow name) }, ?_,
      (f.name_elem_var.set (index - 1) (writeNameRow name)).map getNameRow, ?_, ?_⟩,
    ⟨{ f with name_nod_var := f.name_nod_var.set (index - 1) (writeNameRow name) }, ?_,
      (f.name_nod_var.set (index - 1) (writeNameRow name)).map getNameRow, ?_, ?_⟩⟩
  · simp only [put_global_variable_name, hg]
    rw [if_neg hnot]
  · simp only [get_global_variable_names, hg]
  · rw [List.getElem?_map, List.getElem?_set_self (by omega)]
    simp [hrow]
  · simp only [put_element_variable_name, he]
    rw [if_neg hnot]
  · simp only [get_element_variable_names, he]
  · rw [List.getElem?_map, List.getElem?_set_self (by omega)]
    simp [hrow]
  · simp only [put_node_variable_name, hn]
    rw [if_neg (not_not_intro hin), if_neg hnot]
  · simp only [get_node_variable_names, hn]
  · rw [List.getElem?_map, List.getElem?_set_self (by omega)]
    simp [hrow]

/-- Witness for the amended C4 theorem: the 33-byte name consisting of 33
letters b round-trips unchanged through all three catalogs of a file with
one variable declared per catalog. -/
theorem name_roundtrip_witness :
    (∃ f', put_global_variable_name varDeclFile (List.replicate 33 98) 1 = .ok f' ∧
      ∃ ns, get_global_variable_names f' = .ok ns ∧ ns[0]? = some (List.replicate 33 98)) ∧
    (∃ f', put_element_variable_name varDeclFile (List.replicate 33 98) 1 = .ok f' ∧
      ∃ ns, get_element_variable_names f' = .ok ns ∧ ns[0]? = some (List.replicate 33 98)) ∧
    (∃ f', put_node_variable_name varDeclFile (List.replicate 33 98) 1 = .ok f' ∧
      ∃ ns, get_node_variable_names f' = .ok ns ∧ ns[0]? = some (List.replicate 33 98)) :=
  name_roundtrip varDeclFile (List.replicate 33 98) 1 1 1 1
    (by decide) (by decide) (by decide) (by decide)
    (by decide) (by decide) (by decide) (by decide) (by decide) (by decide)
    (by decide) (by decide) (by decide) (by decide)

/-- C8: re-invoking block allocation with an external id already recorded at
a claimed slot of `eb_prop1` is not rejected: it succeeds and silently claims
a new slot, so the same external id appears at two distinct slots of
`eb_prop1`; by contrast, side-set allocation rejects a duplicate external
id with a validation error. -/
theorem duplicate_block_id_claims_new_slot (f : ExoFile) (id : Int) (t : String)
    (ne nn j : Nat)
    (hj1 : f.eb_status[j]? = some 1)
    (hj2 : f.eb_prop1[j]? = some id)
    (hfree : (0 : Int) ∈ f.eb_status)
    (hne : ne ≤ f.numElems)
    (hlen : f.eb_prop1.length = f.eb_status.length) :
    (∃ f' k, put_elem_blk_info f id t ne nn 0 = .ok f' ∧ ¬(j = k) ∧
      f'.eb_prop1[j]? = some id ∧ f'.eb_prop1[k]? = some id) ∧
    (∀ (g : ExoFile) (m : Nat), g.ss_prop1.length = g.numSideSets → id ∈ g.ss_prop1 →
      put_side_set_params g id m 0 = .error (.validation "Side set id already exists.")) := by
  constructor
  · have hklt : f.eb_status.findIdx (fun x => x = 0) < f.eb_status.length :=
      List.findIdx_lt_length_of_exists ⟨0, hfree, by simp⟩
    have hk0 : f.eb_status[f.eb_status.findIdx (fun x => x = 0)] = 0 := by
      have := @List.findIdx_getElem Int (fun x => decide (x = 0)) f.eb_status hklt
      simpa using this
    have hjk : ¬(j = f.eb_status.findIdx (fun x => x = 0)) := by
      intro h
      rw [h, List.getElem?_eq_getElem hklt, hk0] at hj1
      exact absurd (Option.some.inj hj1) (by decide)
    refine ⟨{ f with
        numElInBlk := dictSet f.numElInBlk (f.eb_status.findIdx (fun x => x = 0) + 1) ne
        numNodPerEl := dictSet f.numNodPerEl (f.eb_status.findIdx (fun x => x = 0) + 1) nn
        connects := dictSet f.connects (f.eb_status.findIdx (fun x => x = 0) + 1)
          (Conn.mk t (List.replicate ne (List.replicate nn 0)))
        eb_status := f.eb_status.set (f.eb_status.findIdx (fun x => x = 0)) 1
        eb_prop1 := f.eb_prop1.set (f.eb_status.findIdx (fun x => x = 0)) id },
      f.eb_status.findIdx (fun x => x = 0), ?_, hjk, ?_, ?_⟩
    · rw [put_elem_blk_info, if_neg (not_not_intro hne), if_neg (not_not_intro rfl),
        if_neg (not_not_intro hfree)]
      simp only [Nat.add_sub_cancel]
    · show (f.eb_prop1.set (f.eb_status.findIdx (fun x => x = 0)) id)[j]? = some id
      rw [List.getElem?_set_ne (Ne.symm hjk)]
      exact hj2
    · show (f.eb_prop1.set (f.eb_status.findIdx (fun x => x = 0)) id)[_]? = some id
      exact List.getElem?_set_self (by omega)
  · intro g m hlen' hdup
    exact ss_duplicate_rejected g id m hlen' hdup

/-- Witness for C8: in a two-block file whose slot 1 is claimed with id 7,
allocating id 7 again succeeds and id 7 ends up at two distinct slots, while
a side set with a duplicate id is rejected. -/
theorem duplicate_block_id_claims_new_slot_witness :
    (∃ f' k, put_elem_blk_info blk7File 7 "hex" 1 3 0 = .ok f' ∧ ¬(0 = k) ∧
      f'.eb_prop1[0]? = some 7 ∧ f'.eb_prop1[k]? = some 7) ∧
    (∀ (g : ExoFile) (m : Nat), g.ss_prop1.length = g.numSideSets →
      (7 : Int) ∈ g.ss_prop1 →
      put_side_set_params g 7 m 0 = .error (.validation "Side set id already exists.")) :=
  duplicate_block_id_claims_new_slot blk7File 7 "hex" 1 3 0
    (by decide) (by decide) (by decide) (by decide) (by decide)

/-- C7: for `put_time` and every put-variable-value operation, a call with
step 0 or step above the declared time-step capacity fails with a validation
error (the step asserts precede every other check), while a call with
step 1 - the only valid value under the fixed capacity of one - succeeds,
given that the referenced variable names and block exist. -/
theorem step_bounds (f : ExoFile) (step : Nat) (v : Rat)
    (gname ename nname : Bytes) (vals : List Rat) (blockId nb ni : Nat)
    (gnames enames nnames : List Bytes) (rows : List (List Rat))
    (hbad : step = 0 ∨ f.timeStepDim < step)
    (htd : f.timeStepDim = 1)
    (hgn : get_global_variable_names f = .ok gnames)
    (hgi : ∃ gi, gnames.findIdx? (fun n => n = gname) = some gi)
    (hen : get_element_variable_names f = .ok enames)
    (hei : ∃ ei, enames.findIdx? (fun n => n = ename) = some ei)
    (hblk : dictGet f.numElInBlk blockId = some nb)
    (hnn : get_node_variable_names f = .ok nnames)
    (hni : nnames.findIdx? (fun n => n = nname) = some ni)
    (hnv : dictGet f.vals_nod_var (ni + 1) = some rows) :
    resIsValidation (put_time f step v) = true ∧
    resIsValidation (put_global_variable_value f gname step v) = true ∧
    resIsValidation (put_element_variable_values f blockId ename step vals) = true ∧
    resIsValidation (put_node_variable_values f nname step vals) = true ∧
    (put_time f 1 v).isOk = true ∧
    (put_global_variable_value f gname 1 v).isOk = true ∧
    (put_element_variable_values f blockId ename 1 vals).isOk = true ∧
    (put_node_variable_values f nname 1 vals).isOk = true := by
  obtain ⟨gi, hgi⟩ := hgi
  obtain ⟨ei, hei⟩ := hei
  have herr : (¬(0 < step)) ∨ (0 < step ∧ ¬(step ≤ f.timeStepDim)) := by
    rcases hbad with h | h
    · exact Or.inl (by omega)
    · exact Or.inr ⟨by omega, by omega⟩
  have e1 : resIsValidation (put_time f step v) = true := by
    rcases herr with h | ⟨h1, h2⟩
    · rw [put_time, if_pos h]
      rfl
    · rw [put_time, if_neg (not_not_intro (by omega)), if_pos h2]
      rfl
  have e2 : resIsValidation (put_global_variable_value f gname step v) = true := by
    rcases herr with h | ⟨h1, h2⟩
    · rw [put_global_variable_value, if_pos h]
      rfl
    · rw [put_global_variable_value, if_neg (not_not_intro (by omega)), if_pos h2]
      rfl
  have e3 : resIsValidation (put_element_variable_values f blockId ename step vals)
      = true := by
    rcases herr with h | ⟨h1, h2⟩
    · rw [put_element_variable_values, if_pos h]
      rfl
    · rw [put_element_variable_values, if_neg (not_not_intro (by omega)), if_pos h2]
      rfl
  have e4 : resIsValidation (put_node_variable_values f nname step vals) = true := by
    rcases herr with h | ⟨h1, h2⟩
    · rw [put_node_variable_values, if_pos h]
      rfl
    · rw [put_node_variable_values, if_neg (not_not_intro (by omega)), if_pos h2]
      rfl
  have hle : (1 : Nat) ≤ f.timeStepDim := by omega
  have s1 : (put_time f 1 v).isOk = true := by
    rw [put_time, if_neg (not_not_intro (by omega)), if_neg (not_not_intro hle)]
    rfl
  have s2 : (put_global_variable_value f gname 1 v).isOk = true := by
    rw [put_global_variable_value, if_neg (not_not_intro (by omega)),
      if_neg (not_not_intro hle)]
    rw [hgn]
    simp only [hgi]
    rfl
  have s3 : (put_element_variable_values f blockId ename 1 vals).isOk = true := by
    rw [put_element_variable_values, if_neg (not_not_intro (by omega)),
      if_neg (not_not_intro hle)]
    rw [hblk]
    simp only [hen, hei]
    rfl
  have s4 : (put_node_variable_values f nname 1 vals).isOk = true := by
    rw [put_node_variable_values, if_neg (not_not_intro (by omega)),
      if_neg (not_not_intro hle)]
    rw [hnn]
    simp only [hni, hnv]
    rfl
  exact ⟨e1, e2, e3, e4, s1, s2, s3, s4⟩

/-- Witness for C7 on a concrete file with one variable per catalog (named
"g", "e", "n") and one block at slot 1, using the failing step 0 and the
succeeding step 1. -/
theorem step_bounds_witness :
    resIsValidation (put_time varNamedFile 0 0) = true ∧
    resIsValidation (put_global_variable_value varNamedFile [103] 0 0) = true ∧
    resIsValidation (put_element_variable_values varNamedFile 1 [101] 0 []) = true ∧
    resIsValidation (put_node_variable_values varNamedFile [110] 0 []) = true ∧
    (put_time varNamedFile 1 0).isOk = true ∧
    (put_global_variable_value varNamedFile [103] 1 0).isOk = true ∧
    (put_element_variable_values varNamedFile 1 [101] 1 []).isOk = true ∧
    (put_node_variable_values varNamedFile [110] 1 []).isOk = true :=
  step_bounds varNamedFile 0 0 [103] [101] [110] [] 1 1 0
    [[103]] [[101]] [[110]] [List.replicate 4 0]
    (Or.inl rfl) (by decide) rfl ⟨0, by decide⟩ rfl ⟨0, by decide⟩
    (by decide) rfl (by decide) rfl

/-! Lemmas about the chunked connectivity write. -/

theorem reshape2_length (l : List Int) (ne nn : Nat) : (reshape2 l ne nn).length = ne := by
  simp [reshape2]

/-- The chunk loop with a positive rows-per-chunk count overwrites every row
from `idx` on with the corresponding shifted input row, regardless of the
chunk count. -/
theorem chunkLoop_eq (t : List (List Int)) (shift : Int) (cs : Nat) (hcs : 0 < cs)
    (store : List (List Int)) (idx : Nat) (hlen : store.length = t.length) :
    chunkLoop t shift cs hcs store idx =
      store.take idx ++ (t.drop idx).map (fun row => row.map (fun x => x + shift)) := by
  rw [chunkLoop]
  split
  · rename_i h
    have hcl : (((t.drop idx).take cs).map
        (fun row => row.map (fun x => x + shift))).length = min cs (t.length - idx) := by
      simp [List.length_map, List.length_take, List.length_drop]
    have hsetlen : (setSlice store idx (((t.drop idx).take cs).map
        (fun row => row.map (fun x => x + shift)))).length = t.length := by
      simp only [setSlice, List.length_append, List.length_take, List.length_drop, hcl,
        hlen]
      omega
    rw [chunkLoop_eq t shift cs hcs _ (idx + cs) hsetlen]
    have hA : (setSlice store idx (((t.drop idx).take cs).map
        (fun row => row.map (fun x => x + shift)))).take (idx + cs) =
        store.take idx ++ ((t.drop idx).take cs).map
          (fun row => row.map (fun x => x + shift)) := by
      rw [setSlice, List.take_append_eq_append_take]
      have hl1 : (store.take idx ++ ((t.drop idx).take cs).map
          (fun row => row.map (fun x => x + shift))).length
          = idx + min cs (t.length - idx) := by
        simp only [List.length_append, List.length_take, hcl, hlen]
        omega
      rw [List.take_of_length_le (by rw [hl1]; omega), hl1]
      have hrest : List.take (idx + cs - (idx + min cs (t.length - idx)))
          (List.drop (idx + (((t.drop idx).take cs).map
            (fun row => row.map (fun x => x + shift))).length) store) = [] := by
        rw [hcl]
        by_cases hc : cs ≤ t.length - idx
        · rw [Nat.min_eq_left hc]
          simp
        · rw [Nat.min_eq_right (by omega)]
          rw [show idx + (t.length - idx) = store.length by omega]
          rw [List.drop_length, List.take_nil]
      rw [hrest, List.append_nil]
    rw [hA, List.append_assoc]
    have hB : ((t.drop idx).take cs).map (fun row => row.map (fun x => x + shift)) ++
        (t.drop (idx + cs)).map (fun row => row.map (fun x => x + shift)) =
        (t.drop idx).map (fun row => row.map (fun x => x + shift)) := by
      rw [List.map_take, List.map_drop, List.map_drop, ← List.drop_drop]
      exact List.take_append_drop cs ((t.map (fun row => row.map (fun x => x + shift))).drop idx)
    rw [hB]
  · rename_i h
    rw [List.drop_eq_nil_of_le (by omega), List.take_of_length_le (by omega)]
    simp
termination_by t.length - idx
decreasing_by omega

/-- Core of C3: with any chunk budget whose computed rows-per-chunk count is
positive, the shifted chunked write stores exactly the reshaped input plus
the shift. -/
theorem put_elem_connectivity_shift_ok (f : ExoFile) (id ne nn : Nat) (c : Conn)
    (conn : List Int) (k : Int) (mb itemsize : Nat)
    (h1 : dictGet f.numElInBlk id = some ne)
    (h2 : dictGet f.numNodPerEl id = some nn)
    (h3 : dictGet f.connects id = some c)
    (hvals : c.vals.length = ne)
    (hlen : conn.length = ne * nn)
    (hk : ¬(k = 0))
    (hc : 0 < chunkSizeOf mb itemsize nn) :
    put_elem_connectivity f id conn k mb itemsize =
      PRes.ok (setConnVar f id (Conn.mk c.elem_type (shiftRows k (reshape2 conn ne nn)))) := by
  have hinz : ¬(itemsize * nn = 0) := by
    intro h
    rcases Nat.mul_eq_zero.mp h with h' | h' <;>
      (rw [chunkSizeOf, h'] at hc; simp at hc)
  simp only [put_elem_connectivity, h1, h2, h3]
  rw [if_neg (not_not_intro hlen), if_pos hk, if_neg hinz, dif_pos hc]
  rw [chunkLoop_eq _ _ _ hc c.vals 0 (by rw [hvals, reshape2_length])]
  simp [shiftRows, setConnVar]

/-- C3 (amended): for every connectivity array of the declared size and every
nonzero index shift k, the write with a chunk budget at least as large as
the full array and the write with any smaller positive chunk budget that
still admits at least one row per chunk (budget divided by row width times
element size is at least 1) both terminate and store identical values - each
stored entry equal to the input entry plus k.  (A positive budget below one
row width computes a zero rows-per-chunk count and the source loop never
terminates, see the counterexample.) -/
theorem chunked_write_equiv (f : ExoFile) (id ne nn : Nat) (c : Conn)
    (conn : List Int) (k : Int) (mb1 mb2 itemsize : Nat)
    (h1 : dictGet f.numElInBlk id = some ne)
    (h2 : dictGet f.numNodPerEl id = some nn)
    (h3 : dictGet f.connects id = some c)
    (hvals : c.vals.length = ne)
    (hlen : conn.length = ne * nn)
    (hk : ¬(k = 0))
    (hc1 : 0 < chunkSizeOf mb1 itemsize nn)
    (hc2 : 0 < chunkSizeOf mb2 itemsize nn) :
    put_elem_connectivity f id conn k mb1 itemsize =
      PRes.ok (setConnVar f id (Conn.mk c.elem_type (shiftRows k (reshape2 conn ne nn)))) ∧
    put_elem_connectivity f id conn k mb2 itemsize =
      put_elem_connectivity f id conn k mb1 itemsize := by
  have e1 := put_elem_connectivity_shift_ok f id ne nn c conn k mb1 itemsize
    h1 h2 h3 hvals hlen hk hc1
  have e2 := put_elem_connectivity_shift_ok f id ne nn c conn k mb2 itemsize
    h1 h2 h3 hvals hlen hk hc2
  exact ⟨e1, e2.trans e1.symm⟩

/-- Witness for the amended C3 theorem: a (1 × 2) block written with shift 1,
once with a 128 MB budget and once with a 1 MB budget. -/
theorem chunked_write_equiv_witness :
    put_elem_connectivity quadBlockFile 1 [5, 6] 1 128 4 =
      PRes.ok (setConnVar quadBlockFile 1
        (Conn.mk "quad" (shiftRows 1 (reshape2 [5, 6] 1 2)))) ∧
    put_elem_connectivity quadBlockFile 1 [5, 6] 1 1 4 =
      put_elem_connectivity quadBlockFile 1 [5, 6] 1 128 4 :=
  chunked_write_equiv quadBlockFile 1 1 2 (Conn.mk "quad" [[0, 0]]) [5, 6] 1 128 1 4
    (by decide) (by decide) (by decide) (by decide) (by decide) (by decide)
    (by decide) (by decide)

/-- C3 counterexample: a block with 262145 int32 entries per row (one row of
just over 1 MB).  Its full array is larger than the 1 MB chunk budget, the
budget is positive, yet the computed rows-per-chunk count
`int(1 * 1024 ** 2 / 4 / 262145)` is zero, so `idx` never advances and the
write loops forever instead of terminating with the shifted values. -/
theorem chunked_write_counterexample :
    put_elem_blk_info smallFile3d 1 "tet" 1 262145 0 = .ok wideBlockFile ∧
    put_elem_connectivity wideBlockFile 1 (List.replicate 262145 0) 1 1 4 =
      PRes.hang := by
  refine ⟨rfl, ?_⟩
  have e1 : dictGet wideBlockFile.numElInBlk 1 = some 1 := rfl
  have e2 : dictGet wideBlockFile.numNodPerEl 1 = some 262145 := rfl
  have e3 : dictGet wideBlockFile.connects 1 =
      some (Conn.mk "tet" (List.replicate 1 (List.replicate 262145 0))) := rfl
  simp only [put_elem_connectivity, e1, e2, e3]
  simp only [List.length_replicate]
  norm_num [chunkSizeOf]

end PyExodus
